import Mathlib

/-!
Shallow embedding of the query-composition core of the tasktimetracker
service (Rust, axum + sqlx).  The embedded functions mirror, line by line,
the handler code in `src/handlers/booking_handlers.rs`,
`src/handlers/tag_handlers.rs` and the record logic in `src/records.rs`.

The sqlx `QueryBuilder` is modelled as a pair of the statement text
accumulated so far and the ordered list of bound parameter values;
`push` appends a fixed fragment to the text, `push_bind` appends a
placeholder (`?`, the SQLite placeholder) to the text and the value to
the bind list.  Handler functions that consult the wall clock take the
clock reading as an explicit argument.
-/

/-- A value handed to `push_bind`: the handlers only ever bind `i64`
integers and strings. -/
inductive Value where
  | int : Int → Value
  | str : String → Value
deriving DecidableEq, Repr

/-- Model of `sqlx::QueryBuilder`: statement text plus ordered bind list. -/
structure QueryBuilder where
  sql : String
  binds : List Value
deriving DecidableEq, Repr

/-- `QueryBuilder::new(init)`. -/
def QueryBuilder.new (init : String) : QueryBuilder :=
  ⟨init, []⟩

/-- `QueryBuilder::push(fragment)`: fixed text is appended to the statement. -/
def QueryBuilder.push (qb : QueryBuilder) (s : String) : QueryBuilder :=
  ⟨qb.sql ++ s, qb.binds⟩

/-- `QueryBuilder::push_bind(value)`: a placeholder goes into the text and
the value goes into the bind list. -/
def QueryBuilder.pushBind (qb : QueryBuilder) (v : Value) : QueryBuilder :=
  ⟨qb.sql ++ "?", qb.binds ++ [v]⟩

/-- `BookingGetQueryParams` (booking_handlers.rs, lines 127-136): the
filter model of the booking read path.  Every field is optional; `tag`
is an optional list of tag names. -/
structure BookingGetQueryParams where
  id : Option Int
  startdate_min : Option Int
  startdate_max : Option Int
  enddate_min : Option Int
  enddate_max : Option Int
  tag : Option (List String)
  description_contains : Option String
deriving DecidableEq, Repr

/-- The join block of `get_bookings` (lines 144-148): the inner-join chain
is appended iff `params.tag.is_some()`. -/
def joinStep (p : BookingGetQueryParams) (qb : QueryBuilder) : QueryBuilder :=
  if p.tag.isSome then
    qb.push " b INNER JOIN tagassignment tg ON b.id = tg.bid INNER JOIN tag t ON t.id = tg.tgid"
  else qb

/-- The `id` block of `get_bookings` (lines 151-157): the column is
qualified with the base alias `b.` iff the join was added. -/
def idStep (p : BookingGetQueryParams) (qb : QueryBuilder) : QueryBuilder :=
  match p.id with
  | some id =>
      let qb := qb.push " AND "
      let qb := if p.tag.isSome then qb.push "b." else qb
      (qb.push "id = ").pushBind (Value.int id)
  | none => qb

/-- The `startdate_min` block of `get_bookings` (lines 159-163). -/
def startdateMinStep (p : BookingGetQueryParams) (qb : QueryBuilder) : QueryBuilder :=
  match p.startdate_min with
  | some v => (qb.push " AND startdate > ").pushBind (Value.int v)
  | none => qb

/-- The `startdate_max` block of `get_bookings` (lines 165-169). -/
def startdateMaxStep (p : BookingGetQueryParams) (qb : QueryBuilder) : QueryBuilder :=
  match p.startdate_max with
  | some v => (qb.push " AND startdate < ").pushBind (Value.int v)
  | none => qb

/-- The `enddate_min` block of `get_bookings` (lines 171-173). -/
def enddateMinStep (p : BookingGetQueryParams) (qb : QueryBuilder) : QueryBuilder :=
  match p.enddate_min with
  | some v => (qb.push " AND enddate > ").pushBind (Value.int v)
  | none => qb

/-- The `enddate_max` block of `get_bookings` (lines 175-177).  Note the
source compares with `>`, exactly as the `enddate_min` block does. -/
def enddateMaxStep (p : BookingGetQueryParams) (qb : QueryBuilder) : QueryBuilder :=
  match p.enddate_max with
  | some v => (qb.push " AND enddate > ").pushBind (Value.int v)
  | none => qb

/-- The `description_contains` block of `get_bookings` (lines 179-184):
the searched substring is a bound parameter inside `CONCAT('%', ?, '%')`. -/
def descriptionStep (p : BookingGetQueryParams) (qb : QueryBuilder) : QueryBuilder :=
  match p.description_contains with
  | some s => ((qb.push " AND des LIKE CONCAT(\x27%\x27, ").pushBind (Value.str s)).push ", \x27%\x27)"
  | none => qb

/-- The `for (index, tag) in tags.into_iter().enumerate()` loop of
`get_bookings` (lines 189-194): each name is bound, and a comma is pushed
after every element whose index is below `tags_len - 1`. -/
def pushTagBinds (qb : QueryBuilder) (tags : List String) (tagsLen idx : Nat) : QueryBuilder :=
  match tags with
  | [] => qb
  | t :: rest =>
      let qb := qb.pushBind (Value.str t)
      let qb := if idx < tagsLen - 1 then qb.push "," else qb
      pushTagBinds qb rest tagsLen (idx + 1)

/-- The tag-membership block of `get_bookings` (lines 186-196). -/
def tagStep (p : BookingGetQueryParams) (qb : QueryBuilder) : QueryBuilder :=
  match p.tag with
  | some tags => (pushTagBinds (qb.push " AND t.name IN (") tags tags.length 0).push ")"
  | none => qb

/-- `get_bookings` (booking_handlers.rs, lines 138-201): the composed
parameterized select statement, assembled in the source's fixed order. -/
def get_bookings (p : BookingGetQueryParams) : QueryBuilder :=
  tagStep p
    (descriptionStep p
      (enddateMaxStep p
        (enddateMinStep p
          (startdateMaxStep p
            (startdateMinStep p
              (idStep p
                ((joinStep p (QueryBuilder.new "SELECT * FROM booking")).push " WHERE TRUE")))))))

/-- `BookingPatchQueryParams` (booking_handlers.rs, lines 28-34). -/
structure BookingPatchQueryParams where
  id : Int
  startdate : Option Int
  enddate : Option Int
  description : Option String
deriving DecidableEq, Repr

/-- Outcome of a patch handler: either the early no-content return taken
before any statement is built or any storage connection is used, or the
composed update statement that is then executed. -/
inductive PatchResult where
  | noContent
  | query : QueryBuilder → PatchResult
deriving DecidableEq, Repr

/-- The `startdate` assignment block of `patch_booking` (lines 48-51).
The state is the builder together with the `comma_necessary` flag. -/
def patchStartdateStep (p : BookingPatchQueryParams) (st : QueryBuilder × Bool) :
    QueryBuilder × Bool :=
  match p.startdate with
  | some v => ((st.1.push "startdate = ").pushBind (Value.int v), true)
  | none => st

/-- The `enddate` assignment block of `patch_booking` (lines 53-59): a
separator `", "` is pushed first iff a previous assignment was emitted. -/
def patchEnddateStep (p : BookingPatchQueryParams) (st : QueryBuilder × Bool) :
    QueryBuilder × Bool :=
  match p.enddate with
  | some v =>
      let qb := if st.2 then st.1.push ", " else st.1
      ((qb.push "enddate = ").pushBind (Value.int v), true)
  | none => st

/-- The `description` assignment block of `patch_booking` (lines 61-66). -/
def patchDescriptionStep (p : BookingPatchQueryParams) (st : QueryBuilder × Bool) :
    QueryBuilder × Bool :=
  match p.description with
  | some v =>
      let qb := if st.2 then st.1.push ", " else st.1
      ((qb.push "des = ").pushBind (Value.str v), st.2)
  | none => st

/-- The statement-building part of `patch_booking` (lines 44-71), reached
only when at least one updatable field was supplied. -/
def patch_booking_query (p : BookingPatchQueryParams) : QueryBuilder :=
  let st := ((QueryBuilder.new "UPDATE booking ").push "SET ", false)
  let st := patchStartdateStep p st
  let st := patchEnddateStep p st
  let st := patchDescriptionStep p st
  ((st.1.push " WHERE id = ").pushBind (Value.int p.id)).push
    " RETURNING id, startdate, enddate, des"

/-- `patch_booking` (booking_handlers.rs, lines 36-79): when no updatable
field is supplied the handler returns `NO_CONTENT` before constructing a
builder or touching the pool; otherwise it composes and runs the update. -/
def patch_booking (p : BookingPatchQueryParams) : PatchResult :=
  if p.description.isNone && p.startdate.isNone && p.enddate.isNone then
    PatchResult.noContent
  else
    PatchResult.query (patch_booking_query p)

/-- `TagPatchQueryParams` (tag_handlers.rs, lines 61-65). -/
structure TagPatchQueryParams where
  id : Int
  name : Option String
deriving DecidableEq, Repr

/-- `patch_tag` (tag_handlers.rs, lines 67-88): with no `name` supplied the
handler returns `NO_CONTENT` without building a statement or touching the
pool; otherwise it composes the single-assignment update. -/
def patch_tag (p : TagPatchQueryParams) : PatchResult :=
  match p.name with
  | some name =>
      PatchResult.query
        ((((((QueryBuilder.new "").push "UPDATE tag SET name = ").pushBind
          (Value.str name)).push " WHERE id = ").pushBind (Value.int p.id)).push
          " RETURNING id, name")
  | none => PatchResult.noContent

/-- `BookingPostQueryParams` (booking_handlers.rs, lines 81-85): the create
request accepts only `enddate` and `description` — it has no field for the
start timestamp. -/
structure BookingPostQueryParams where
  enddate : Option Int
  description : Option String
deriving DecidableEq, Repr

/-- `post_booking` (booking_handlers.rs, lines 87-125).  `startdate` is the
server wall-clock reading taken at composition time (lines 93-97), passed
here as an explicit argument; it is always the first bound value. -/
def post_booking (p : BookingPostQueryParams) (startdate : Int) : QueryBuilder :=
  let qb := QueryBuilder.new "INSERT INTO BOOKING (startdate"
  let qb := if p.enddate.isSome then qb.push ", enddate" else qb
  let qb := if p.description.isSome then qb.push ", des" else qb
  let qb := (qb.push ") VALUES (").pushBind (Value.int startdate)
  let qb := match p.enddate with
    | some v => (qb.push ", ").pushBind (Value.int v)
    | none => qb
  let qb := match p.description with
    | some v => (qb.push ", ").pushBind (Value.str v)
    | none => qb
  qb.push ") RETURNING id, startdate, enddate, des"

namespace Records

/-- The `Booking` record of `src/records.rs` (fields `id`, `tid`,
`startdate`, `enddate`; `enddate` is `Option<i64>`). -/
structure Booking where
  id : Int
  tid : Int
  startdate : Int
  enddate : Option Int
deriving DecidableEq, Repr

/-- `Booking::is_finished` (records.rs, lines 569-571). -/
def Booking.is_finished (b : Booking) : Bool :=
  b.enddate.isSome

/-- `Booking::finish` (records.rs, lines 548-560).  The wall-clock reading
(epoch milliseconds) is the explicit argument `now`. -/
def Booking.finish (b : Booking) (now : Int) : Except String Booking :=
  if ! b.is_finished then
    Except.ok { b with enddate := some now }
  else
    Except.error "Booking is already finished"

end Records

/-! ### Derived characterizations

The definitions below do not come from the source; they are the explicit
closed forms that the theorems prove the composed statements equal to.
`BookingFilterShape` records only *which* filter fields are present (and
how many tag names were supplied), never their values. -/

/-- Presence shape of a booking filter model: one flag per optional field,
and the number of supplied tag names (when the tag list is supplied at
all).  Contains no user-supplied value. -/
structure BookingFilterShape where
  has_id : Bool
  has_startdate_min : Bool
  has_startdate_max : Bool
  has_enddate_min : Bool
  has_enddate_max : Bool
  tag_count : Option Nat
  has_description_contains : Bool
deriving DecidableEq, Repr

/-- The shape of a filter model: field presence plus tag-list length. -/
def shape (p : BookingGetQueryParams) : BookingFilterShape :=
  ⟨p.id.isSome, p.startdate_min.isSome, p.startdate_max.isSome,
    p.enddate_min.isSome, p.enddate_max.isSome,
    p.tag.map List.length, p.description_contains.isSome⟩

/-- `sep`-joined concatenation with the separator strictly between
elements: no leading and no trailing separator. -/
def commaJoin (sep : String) : List String → String
  | [] => ""
  | [a] => a
  | a :: b :: rest => a ++ sep ++ commaJoin sep (b :: rest)

/-- The fixed inner-join fragment of the booking read statement. -/
def joinFrag : String :=
  " b INNER JOIN tagassignment tg ON b.id = tg.bid INNER JOIN tag t ON t.id = tg.tgid"

/-- Statement fragment contributed by the `id` filter. -/
def idFragS (s : BookingFilterShape) : String :=
  if s.has_id then
    (if s.tag_count.isSome then " AND b.id = ?" else " AND id = ?")
  else ""

/-- Statement fragment contributed by the `startdate_min` filter. -/
def startdateMinFragS (s : BookingFilterShape) : String :=
  if s.has_startdate_min then " AND startdate > ?" else ""

/-- Statement fragment contributed by the `startdate_max` filter. -/
def startdateMaxFragS (s : BookingFilterShape) : String :=
  if s.has_startdate_max then " AND startdate < ?" else ""

/-- Statement fragment contributed by the `enddate_min` filter. -/
def enddateMinFragS (s : BookingFilterShape) : String :=
  if s.has_enddate_min then " AND enddate > ?" else ""

/-- Statement fragment contributed by the `enddate_max` filter: the source
emits `>` here as well. -/
def enddateMaxFragS (s : BookingFilterShape) : String :=
  if s.has_enddate_max then " AND enddate > ?" else ""

/-- Statement fragment contributed by the `description_contains` filter. -/
def descFragS (s : BookingFilterShape) : String :=
  if s.has_description_contains then " AND des LIKE CONCAT(\x27%\x27, ?, \x27%\x27)" else ""

/-- Statement fragment contributed by the tag filter: an `IN` list with one
placeholder per supplied tag name, commas strictly between elements. -/
def tagFragS (s : BookingFilterShape) : String :=
  match s.tag_count with
  | some n => " AND t.name IN (" ++ commaJoin "," (List.replicate n "?") ++ ")"
  | none => ""

/-- All non-tag predicate fragments, in the source's fixed emission order. -/
def predsSql (s : BookingFilterShape) : String :=
  idFragS s ++ startdateMinFragS s ++ startdateMaxFragS s ++
    enddateMinFragS s ++ enddateMaxFragS s ++ descFragS s

/-- The full statement text as a function of the shape alone. -/
def sqlOfShape (s : BookingFilterShape) : String :=
  "SELECT * FROM booking" ++ (if s.tag_count.isSome then joinFrag else "") ++
    " WHERE TRUE" ++ predsSql s ++ tagFragS s

/-- Bind contributed by the `id` filter. -/
def idBinds (p : BookingGetQueryParams) : List Value :=
  match p.id with
  | some v => [Value.int v]
  | none => []

/-- Bind contributed by the `startdate_min` filter. -/
def startdateMinBinds (p : BookingGetQueryParams) : List Value :=
  match p.startdate_min with
  | some v => [Value.int v]
  | none => []

/-- Bind contributed by the `startdate_max` filter. -/
def startdateMaxBinds (p : BookingGetQueryParams) : List Value :=
  match p.startdate_max with
  | some v => [Value.int v]
  | none => []

/-- Bind contributed by the `enddate_min` filter. -/
def enddateMinBinds (p : BookingGetQueryParams) : List Value :=
  match p.enddate_min with
  | some v => [Value.int v]
  | none => []

/-- Bind contributed by the `enddate_max` filter. -/
def enddateMaxBinds (p : BookingGetQueryParams) : List Value :=
  match p.enddate_max with
  | some v => [Value.int v]
  | none => []

/-- Bind contributed by the `description_contains` filter. -/
def descBinds (p : BookingGetQueryParams) : List Value :=
  match p.description_contains with
  | some v => [Value.str v]
  | none => []

/-- Binds contributed by the tag filter: one per supplied name, in order. -/
def tagBinds (p : BookingGetQueryParams) : List Value :=
  match p.tag with
  | some l => l.map Value.str
  | none => []

/-- All non-tag binds, in the source's fixed emission order. -/
def predsBinds (p : BookingGetQueryParams) : List Value :=
  idBinds p ++ startdateMinBinds p ++ startdateMaxBinds p ++
    enddateMinBinds p ++ enddateMaxBinds p ++ descBinds p

/-- The full ordered bind list of the composed booking read statement:
exactly the supplied filter values. -/
def bindsOf (p : BookingGetQueryParams) : List Value :=
  predsBinds p ++ tagBinds p

/-- The assignment fragments of the booking partial update, one per
supplied field, in the source's emission order. -/
def setFragments (p : BookingPatchQueryParams) : List String :=
  (match p.startdate with | some _ => ["startdate = ?"] | none => []) ++
    (match p.enddate with | some _ => ["enddate = ?"] | none => []) ++
    (match p.description with | some _ => ["des = ?"] | none => [])

/-- The bind values of the booking partial update SET clause, one per
supplied field, in the source's emission order. -/
def setBinds (p : BookingPatchQueryParams) : List Value :=
  (match p.startdate with | some v => [Value.int v] | none => []) ++
    (match p.enddate with | some v => [Value.int v] | none => []) ++
    (match p.description with | some v => [Value.str v] | none => [])

/-- The column list of the booking insert: `startdate` always, then the
optional columns in source order. -/
def postColumnsSql (p : BookingPostQueryParams) : String :=
  "INSERT INTO BOOKING (startdate" ++ (if p.enddate.isSome then ", enddate" else "") ++
    (if p.description.isSome then ", des" else "")

/-- The placeholders of the booking insert value list that follow the
server-generated `startdate` placeholder. -/
def postValuesSql (p : BookingPostQueryParams) : String :=
  (if p.enddate.isSome then ", ?" else "") ++ (if p.description.isSome then ", ?" else "")

/-- The caller-supplied bind values of the booking insert, in source
order; the server-generated start timestamp is *not* among them. -/
def postCallerBinds (p : BookingPostQueryParams) : List Value :=
  (match p.enddate with | some v => [Value.int v] | none => []) ++
    (match p.description with | some v => [Value.str v] | none => [])

/-- The Booking record column set, in the stable source order: the
`Booking` struct of `src/booking.rs` and every booking `RETURNING` list
use exactly `id, startdate, enddate, des`. -/
def bookingColumns : List String :=
  ["id", "startdate", "enddate", "des"]

/-- Modelled from the spec: the table schemas (migration files) are not
under src/.  Per spec §4.4 the TagAssignment projection is the two foreign
keys, which the handlers' `RETURNING tgid, bid` list names `tgid, bid`. -/
def tagassignmentColumns : List String :=
  ["tgid", "bid"]

/-- Modelled from the spec: the table schemas (migration files) are not
under src/.  Per spec §4.4 the Tag projection is `{id, name}`, matching
the tag handlers' `RETURNING id, name` list. -/
def tagColumns : List String :=
  ["id", "name"]

/-- Modelled from the spec: the column set projected by the composed read
statement.  The statement text is `SELECT *` over the emitted FROM/JOIN
graph, and SQL star expansion projects every column of every table in the
graph, in table order; the join chain is present iff `params.tag.is_some()`
(booking_handlers.rs, line 144). -/
def projectedColumns (p : BookingGetQueryParams) : List String :=
  ((if p.tag.isSome then ["booking", "tagassignment", "tag"] else ["booking"]).map
    fun t =>
      if t = "booking" then bookingColumns
      else if t = "tagassignment" then tagassignmentColumns
      else if t = "tag" then tagColumns
      else []).flatten

/-! ### Step lemmas for the booking read path -/

theorem joinStep_spec (p : BookingGetQueryParams) (qb : QueryBuilder) :
    joinStep p qb =
      ⟨qb.sql ++ (if (shape p).tag_count.isSome then joinFrag else ""), qb.binds⟩ := by
  cases htag : p.tag <;>
    simp [joinStep, joinFrag, shape, htag, QueryBuilder.push]

theorem idStep_spec (p : BookingGetQueryParams) (qb : QueryBuilder) :
    idStep p qb = ⟨qb.sql ++ idFragS (shape p), qb.binds ++ idBinds p⟩ := by
  cases hid : p.id <;> cases htag : p.tag <;>
    simp [idStep, idFragS, idBinds, shape, hid, htag, QueryBuilder.push,
      QueryBuilder.pushBind, String.append_assoc]

theorem startdateMinStep_spec (p : BookingGetQueryParams) (qb : QueryBuilder) :
    startdateMinStep p qb =
      ⟨qb.sql ++ startdateMinFragS (shape p), qb.binds ++ startdateMinBinds p⟩ := by
  cases h : p.startdate_min <;>
    simp [startdateMinStep, startdateMinFragS, startdateMinBinds, shape, h,
      QueryBuilder.push, QueryBuilder.pushBind, String.append_assoc]

theorem startdateMaxStep_spec (p : BookingGetQueryParams) (qb : QueryBuilder) :
    startdateMaxStep p qb =
      ⟨qb.sql ++ startdateMaxFragS (shape p), qb.binds ++ startdateMaxBinds p⟩ := by
  cases h : p.startdate_max <;>
    simp [startdateMaxStep, startdateMaxFragS, startdateMaxBinds, shape, h,
      QueryBuilder.push, QueryBuilder.pushBind, String.append_assoc]

theorem enddateMinStep_spec (p : BookingGetQueryParams) (qb : QueryBuilder) :
    enddateMinStep p qb =
      ⟨qb.sql ++ enddateMinFragS (shape p), qb.binds ++ enddateMinBinds p⟩ := by
  cases h : p.enddate_min <;>
    simp [enddateMinStep, enddateMinFragS, enddateMinBinds, shape, h,
      QueryBuilder.push, QueryBuilder.pushBind, String.append_assoc]

theorem enddateMaxStep_spec (p : BookingGetQueryParams) (qb : QueryBuilder) :
    enddateMaxStep p qb =
      ⟨qb.sql ++ enddateMaxFragS (shape p), qb.binds ++ enddateMaxBinds p⟩ := by
  cases h : p.enddate_max <;>
    simp [enddateMaxStep, enddateMaxFragS, enddateMaxBinds, shape, h,
      QueryBuilder.push, QueryBuilder.pushBind, String.append_assoc]

theorem descriptionStep_spec (p : BookingGetQueryParams) (qb : QueryBuilder) :
    descriptionStep p qb =
      ⟨qb.sql ++ descFragS (shape p), qb.binds ++ descBinds p⟩ := by
  cases h : p.description_contains <;>
    simp [descriptionStep, descFragS, descBinds, shape, h,
      QueryBuilder.push, QueryBuilder.pushBind, String.append_assoc]

theorem pushTagBinds_spec (tags : List String) (qb : QueryBuilder) (n k : Nat)
    (h : n = k + tags.length) :
    pushTagBinds qb tags n k =
      ⟨qb.sql ++ commaJoin "," (tags.map fun _ => "?"),
        qb.binds ++ tags.map Value.str⟩ := by
  induction tags generalizing qb k with
  | nil => simp [pushTagBinds, commaJoin]
  | cons t rest ih =>
      cases rest with
      | nil =>
          have hc : ¬ k < n - 1 := by simp at h; omega
          simp [pushTagBinds, commaJoin, hc, QueryBuilder.pushBind]
      | cons r rs =>
          have hc : k < n - 1 := by simp at h; omega
          rw [pushTagBinds, QueryBuilder.pushBind]
          simp only [hc, if_true]
          rw [ih _ (k + 1) (by simp at h ⊢; omega)]
          simp [commaJoin, QueryBuilder.push, String.append_assoc]

theorem tagStep_spec (p : BookingGetQueryParams) (qb : QueryBuilder) :
    tagStep p qb = ⟨qb.sql ++ tagFragS (shape p), qb.binds ++ tagBinds p⟩ := by
  cases htag : p.tag with
  | none => simp [tagStep, tagFragS, tagBinds, shape, htag]
  | some l =>
      simp only [tagStep, htag]
      rw [pushTagBinds_spec l _ l.length 0 (by simp)]
      simp [tagFragS, tagBinds, shape, htag, QueryBuilder.push,
        String.append_assoc, List.map_const]

/-- Master characterization of `get_bookings`: the statement text is a
function of the presence shape alone, and the bind list is exactly the
supplied values in emission order. -/
theorem get_bookings_spec (p : BookingGetQueryParams) :
    get_bookings p = ⟨sqlOfShape (shape p), bindsOf p⟩ := by
  rw [get_bookings, tagStep_spec, descriptionStep_spec, enddateMaxStep_spec,
    enddateMinStep_spec, startdateMaxStep_spec, startdateMinStep_spec,
    idStep_spec, joinStep_spec]
  simp [sqlOfShape, predsSql, bindsOf, predsBinds, QueryBuilder.new,
    QueryBuilder.push, String.append_assoc]

/-! ### Claim theorems -/

/-- Claim C1: for every booking filter model, every supplied value is
passed as a bound parameter and none is concatenated into the statement
text — the rendered text of the composed select is a function of the
presence shape alone (which fields are present and the tag-list length),
so two filter models with the same shape render identical text, whatever
their values; the bind list is exactly the supplied values in order. -/
theorem get_bookings_text_value_independent (p q : BookingGetQueryParams)
    (h : shape p = shape q) :
    (get_bookings p).sql = (get_bookings q).sql ∧
    (get_bookings p).sql = sqlOfShape (shape p) ∧
    (get_bookings p).binds = bindsOf p := by
  refine ⟨?_, ?_, ?_⟩ <;> simp [get_bookings_spec, h]

/-- Witness for C1: two filter models with the same shape but different
values (different id, dates, tag names, substring) render equal text. -/
theorem get_bookings_text_value_independent_witness :
    shape ⟨some 1, some 2, none, none, some 3, some ["a", "bb"], some "x"⟩ =
      shape ⟨some 9, some 8, none, none, some 7, some ["cc", "d"], some "yyy"⟩ ∧
    ((get_bookings ⟨some 1, some 2, none, none, some 3, some ["a", "bb"], some "x"⟩).sql =
      (get_bookings ⟨some 9, some 8, none, none, some 7, some ["cc", "d"], some "yyy"⟩).sql ∧
    (get_bookings ⟨some 1, some 2, none, none, some 3, some ["a", "bb"], some "x"⟩).sql =
      sqlOfShape (shape ⟨some 1, some 2, none, none, some 3, some ["a", "bb"], some "x"⟩) ∧
    (get_bookings ⟨some 1, some 2, none, none, some 3, some ["a", "bb"], some "x"⟩).binds =
      bindsOf ⟨some 1, some 2, none, none, some 3, some ["a", "bb"], some "x"⟩) :=
  ⟨by decide, get_bookings_text_value_independent _ _ (by decide)⟩

/-- Counterexample to claim C2 as stated: a filter model whose tag list is
supplied as the empty list is *not* treated like one with no tag list —
the composed statement differs, and its text contains the inner-join chain
and an (empty) membership predicate `IN ()`. -/
theorem get_bookings_empty_tag_list_cex :
    get_bookings ⟨none, none, none, none, none, some [], none⟩ ≠
      get_bookings ⟨none, none, none, none, none, none, none⟩ ∧
    (get_bookings ⟨none, none, none, none, none, some [], none⟩).sql =
      "SELECT * FROM booking b INNER JOIN tagassignment tg ON b.id = tg.bid INNER JOIN tag t ON t.id = tg.tgid WHERE TRUE AND t.name IN ()" := by
  decide

/-- Claim C2 (amended): a tag list supplied as the empty list is treated
as supplied — the join chain is added and an empty membership predicate
`IN ()` with zero bound parameters is emitted (so the statement is not the
one composed when the tag field is absent). -/
theorem get_bookings_empty_tag_list (p : BookingGetQueryParams) (h : p.tag = some []) :
    get_bookings p =
      ⟨"SELECT * FROM booking" ++ joinFrag ++ " WHERE TRUE" ++ predsSql (shape p) ++
        " AND t.name IN ()", predsBinds p⟩ := by
  rw [get_bookings_spec]
  simp [sqlOfShape, tagFragS, bindsOf, tagBinds, shape, h, commaJoin, String.append_assoc]

/-- Witness for C2 (amended), at a model that also has an id filter and a
description filter. -/
theorem get_bookings_empty_tag_list_witness :
    (⟨some 7, none, none, none, none, some [], some "x"⟩ : BookingGetQueryParams).tag =
      some [] ∧
    get_bookings ⟨some 7, none, none, none, none, some [], some "x"⟩ =
      ⟨"SELECT * FROM booking" ++ joinFrag ++ " WHERE TRUE" ++
        predsSql (shape ⟨some 7, none, none, none, none, some [], some "x"⟩) ++
        " AND t.name IN ()",
        predsBinds ⟨some 7, none, none, none, none, some [], some "x"⟩⟩ :=
  ⟨rfl, get_bookings_empty_tag_list _ rfl⟩

/-- Claim C3: when `enddate_max` is supplied, its predicate is emitted as
`enddate > ?` — the `>` direction, identical in text to the `enddate_min`
fragment — not `<`; and this fragment is what the composed statement text
contains for it. -/
theorem get_bookings_enddate_max_uses_gt (p : BookingGetQueryParams) (v : Int)
    (h : p.enddate_max = some v) (qb : QueryBuilder) :
    enddateMaxStep p qb = ⟨qb.sql ++ " AND enddate > ?", qb.binds ++ [Value.int v]⟩ ∧
    (get_bookings p).sql = sqlOfShape (shape p) ∧
    enddateMaxFragS (shape p) = " AND enddate > ?" := by
  refine ⟨?_, by simp [get_bookings_spec], ?_⟩
  · simp [enddateMaxStep, h, QueryBuilder.push, QueryBuilder.pushBind, String.append_assoc]
  · simp [enddateMaxFragS, shape, h]

/-- Witness for C3 at a concrete filter model and builder state. -/
theorem get_bookings_enddate_max_uses_gt_witness :
    (⟨none, none, none, none, some 5, none, none⟩ : BookingGetQueryParams).enddate_max =
      some 5 ∧
    (enddateMaxStep ⟨none, none, none, none, some 5, none, none⟩ (QueryBuilder.new "S") =
      ⟨(QueryBuilder.new "S").sql ++ " AND enddate > ?",
        (QueryBuilder.new "S").binds ++ [Value.int 5]⟩ ∧
    (get_bookings ⟨none, none, none, none, some 5, none, none⟩).sql =
      sqlOfShape (shape ⟨none, none, none, none, some 5, none, none⟩) ∧
    enddateMaxFragS (shape ⟨none, none, none, none, some 5, none, none⟩) =
      " AND enddate > ?") :=
  ⟨rfl, get_bookings_enddate_max_uses_gt _ 5 rfl _⟩

/-- Claim C6: a non-empty supplied tag list of N names yields the
inner-join chain plus a membership predicate `t.name IN (…)` holding one
placeholder per name with commas strictly between elements, and exactly N
bound parameters (the names, in order) after the other filters' binds. -/
theorem get_bookings_tag_in_clause (p : BookingGetQueryParams) (l : List String)
    (h : p.tag = some l) (hne : l ≠ []) :
    (get_bookings p).sql =
      "SELECT * FROM booking" ++ joinFrag ++ " WHERE TRUE" ++ predsSql (shape p) ++
        (" AND t.name IN (" ++ commaJoin "," (l.map fun _ => "?") ++ ")") ∧
    (get_bookings p).binds = predsBinds p ++ l.map Value.str ∧
    (l.map Value.str).length = l.length := by
  have hs := get_bookings_spec p
  refine ⟨?_, ?_, by simp⟩
  · rw [hs]
    simp [sqlOfShape, tagFragS, shape, h, List.map_const, String.append_assoc]
  · rw [hs]
    simp [bindsOf, tagBinds, h]

/-- Witness for C6 with two tag names. -/
theorem get_bookings_tag_in_clause_witness :
    (⟨none, none, none, none, none, some ["work", "dev"], none⟩ :
      BookingGetQueryParams).tag = some ["work", "dev"] ∧
    (["work", "dev"] : List String) ≠ [] ∧
    ((get_bookings ⟨none, none, none, none, none, some ["work", "dev"], none⟩).sql =
      "SELECT * FROM booking" ++ joinFrag ++ " WHERE TRUE" ++
        predsSql (shape ⟨none, none, none, none, none, some ["work", "dev"], none⟩) ++
        (" AND t.name IN (" ++ commaJoin "," ((["work", "dev"] : List String).map fun _ => "?") ++ ")") ∧
    (get_bookings ⟨none, none, none, none, none, some ["work", "dev"], none⟩).binds =
      predsBinds ⟨none, none, none, none, none, some ["work", "dev"], none⟩ ++
        (["work", "dev"] : List String).map Value.str ∧
    ((["work", "dev"] : List String).map Value.str).length =
      (["work", "dev"] : List String).length) :=
  ⟨rfl, by decide, get_bookings_tag_in_clause _ _ rfl (by decide)⟩

/-- Claim C7: with zero filter fields supplied the composed statement is
exactly the base-table select with the always-true sentinel, no join, no
further predicate and no bound parameter. -/
theorem get_bookings_no_filters :
    get_bookings ⟨none, none, none, none, none, none, none⟩ =
      ⟨"SELECT * FROM booking WHERE TRUE", []⟩ := by
  decide

/-- Claim C8 (amended): the composed read statement is `SELECT *` over the
base table alone when no tag filter is supplied — projecting exactly the
Booking column set `{id, startdate, enddate, des}` — but when the tag
filter triggers the join, star expansion projects the columns of all three
joined tables (booking's columns first, then the assignment and tag
columns), a strict superset of the Booking record column set. -/
theorem get_bookings_projection (p : BookingGetQueryParams) :
    (get_bookings p).sql =
      "SELECT * FROM booking" ++ (if p.tag.isSome then joinFrag else "") ++
        " WHERE TRUE" ++ predsSql (shape p) ++ tagFragS (shape p) ∧
    projectedColumns p =
      bookingColumns ++
        (if p.tag.isSome then tagassignmentColumns ++ tagColumns else []) ∧
    (projectedColumns p = bookingColumns ↔ p.tag = none) := by
  refine ⟨?_, ?_, ?_⟩ <;> cases htag : p.tag <;>
    simp [get_bookings_spec, sqlOfShape, shape, htag, projectedColumns,
      bookingColumns, tagassignmentColumns, tagColumns]

/-- Counterexample to claim C8 as stated: with a tag filter supplied the
composed statement does not project exactly the Booking column set. -/
theorem get_bookings_projection_cex :
    projectedColumns ⟨none, none, none, none, none, some ["work"], none⟩ ≠
      bookingColumns := by
  decide

/-- Claim C4: an update request supplying none of the updatable booking
fields (start, end, description) takes the early no-content return — no
statement is composed (in particular no `SET` with zero assignments) and
storage is never contacted; likewise a tag update with no name supplied. -/
theorem patch_no_fields_noop (bp : BookingPatchQueryParams) (tp : TagPatchQueryParams)
    (h1 : bp.startdate = none) (h2 : bp.enddate = none) (h3 : bp.description = none)
    (h4 : tp.name = none) :
    patch_booking bp = PatchResult.noContent ∧ patch_tag tp = PatchResult.noContent := by
  constructor
  · simp [patch_booking, h1, h2, h3]
  · simp [patch_tag, h4]

/-- Witness for C4 at concrete empty update requests. -/
theorem patch_no_fields_noop_witness :
    (⟨5, none, none, none⟩ : BookingPatchQueryParams).startdate = none ∧
    (⟨5, none, none, none⟩ : BookingPatchQueryParams).enddate = none ∧
    (⟨5, none, none, none⟩ : BookingPatchQueryParams).description = none ∧
    (⟨3, none⟩ : TagPatchQueryParams).name = none ∧
    (patch_booking ⟨5, none, none, none⟩ = PatchResult.noContent ∧
      patch_tag ⟨3, none⟩ = PatchResult.noContent) :=
  ⟨rfl, rfl, rfl, rfl, patch_no_fields_noop _ _ rfl rfl rfl rfl⟩

/-- Claim C5: whenever at least one updatable booking field is supplied,
the composed SET clause is the comma-joined list of exactly one assignment
per supplied field — separators strictly between assignments, no leading
or trailing comma, whichever subset is present. -/
theorem patch_booking_set_clause (p : BookingPatchQueryParams)
    (h : ¬ (p.startdate = none ∧ p.enddate = none ∧ p.description = none)) :
    patch_booking p = PatchResult.query
      ⟨"UPDATE booking SET " ++ commaJoin ", " (setFragments p) ++
        " WHERE id = ? RETURNING id, startdate, enddate, des",
        setBinds p ++ [Value.int p.id]⟩ ∧
    (setFragments p).length =
      (if p.startdate.isSome then 1 else 0) + (if p.enddate.isSome then 1 else 0) +
        (if p.description.isSome then 1 else 0) := by
  cases hs : p.startdate <;> cases he : p.enddate <;> cases hd : p.description <;>
    simp_all [patch_booking, patch_booking_query, patchStartdateStep, patchEnddateStep,
      patchDescriptionStep, setFragments, setBinds, commaJoin, QueryBuilder.new,
      QueryBuilder.push, QueryBuilder.pushBind, String.append_assoc]

/-- Witness for C5: exactly one field supplied, and it is the *last*
candidate (description), so the first two conditional assignments are
skipped and still no separator artifact appears. -/
theorem patch_booking_set_clause_witness :
    ¬ ((⟨9, none, none, some "hey"⟩ : BookingPatchQueryParams).startdate = none ∧
      (⟨9, none, none, some "hey"⟩ : BookingPatchQueryParams).enddate = none ∧
      (⟨9, none, none, some "hey"⟩ : BookingPatchQueryParams).description = none) ∧
    (patch_booking ⟨9, none, none, some "hey"⟩ = PatchResult.query
      ⟨"UPDATE booking SET " ++
        commaJoin ", " (setFragments ⟨9, none, none, some "hey"⟩) ++
        " WHERE id = ? RETURNING id, startdate, enddate, des",
        setBinds ⟨9, none, none, some "hey"⟩ ++ [Value.int 9]⟩ ∧
    (setFragments ⟨9, none, none, some "hey"⟩).length = 1) := by
  refine ⟨by decide, ?_, by decide⟩
  exact (patch_booking_set_clause ⟨9, none, none, some "hey"⟩ (by decide)).1

/-- Counterexample to claim C9 as stated: `finish` performs no comparison
with the start — on an unfinished booking whose start (30) lies after the
current clock reading (20), it succeeds and sets an end *earlier* than the
start, so the unconditional "end not earlier than start" part of the claim
fails.  (A future start is reachable: the patch handler accepts an
arbitrary caller-supplied `startdate`, and the system clock is not
monotonic.) -/
theorem booking_finish_end_before_start_cex :
    Records.Booking.finish ⟨2, 1, 30, none⟩ 20 =
      Except.ok ⟨2, 1, 30, some 20⟩ ∧ (20 : Int) < 30 :=
  ⟨rfl, by decide⟩

/-- Claim C9 (amended): `finish` on a booking whose end is already set
fails with a distinct error and produces no updated booking (the existing
end is not overwritten); on a booking with no end set it succeeds
unconditionally, setting the end to the clock reading `now` and leaving
the start unchanged — the source checks only `is_finished`, never the
start, so the resulting end is not earlier than the start exactly when the
clock reading is not earlier than the recorded start. -/
theorem booking_finish_spec (b : Records.Booking) (now : Int) :
    (b.is_finished = true → b.finish now = Except.error "Booking is already finished") ∧
    (b.is_finished = false →
      b.finish now = Except.ok { b with enddate := some now } ∧
      ∀ b2, b.finish now = Except.ok b2 →
        b2.enddate = some now ∧ b2.startdate = b.startdate ∧
        (b2.startdate ≤ now ↔ b.startdate ≤ now)) := by
  constructor
  · intro hf
    simp [Records.Booking.finish, hf]
  · intro hf
    have hok : b.finish now = Except.ok { b with enddate := some now } := by
      simp [Records.Booking.finish, hf]
    refine ⟨hok, ?_⟩
    intro b2 h2
    rw [hok] at h2
    simp only [Except.ok.injEq] at h2
    subst h2
    exact ⟨rfl, rfl, Iff.rfl⟩

/-- Witness for C9 (amended): an already-finished booking is refused; an
unfinished one is finished at `now = 20`, with start (10) unchanged. -/
theorem booking_finish_spec_witness :
    ((⟨1, 1, 0, some 5⟩ : Records.Booking).is_finished = true ∧
      Records.Booking.finish ⟨1, 1, 0, some 5⟩ 20 =
        Except.error "Booking is already finished") ∧
    ((⟨2, 1, 10, none⟩ : Records.Booking).is_finished = false ∧
      Records.Booking.finish ⟨2, 1, 10, none⟩ 20 =
        Except.ok { (⟨2, 1, 10, none⟩ : Records.Booking) with enddate := some 20 }) :=
  ⟨⟨rfl, (booking_finish_spec ⟨1, 1, 0, some 5⟩ 20).1 rfl⟩,
    ⟨rfl, ((booking_finish_spec ⟨2, 1, 10, none⟩ 20).2 rfl).1⟩⟩

/-- Claim C10: the booking create request exposes no start-timestamp
parameter (`BookingPostQueryParams` has only `enddate` and `description`),
and for every request the composed insert's first bound value — the one in
the `startdate` position of the value list — is the server wall-clock
reading `now`, with the caller-supplied values strictly after it; so a
caller can never supply or influence the start of a new booking. -/
theorem post_booking_start_is_server_time (p : BookingPostQueryParams) (now : Int) :
    post_booking p now =
      ⟨postColumnsSql p ++ ") VALUES (?" ++ postValuesSql p ++
        ") RETURNING id, startdate, enddate, des",
        Value.int now :: postCallerBinds p⟩ := by
  cases he : p.enddate <;> cases hd : p.description <;>
    simp [post_booking, postColumnsSql, postValuesSql, postCallerBinds, he, hd,
      QueryBuilder.new, QueryBuilder.push, QueryBuilder.pushBind, String.append_assoc]
